import Mathlib

/-!
# android_game_engine: simulation loop, world list and touch picking

A shallow embedding of `Game.cpp`, `PhysicsRigidBody.h`, `GameObject.h` and
`TestGame.cpp`.

* Calls that `Game` makes on its collaborators (camera, world objects, physics
  engine, the `onGameObjectTouched` hook) are recorded, in program order, in a
  trace carried by the game state.  Statements about "what happens before
  what" are statements about that trace.
* `float` values that are only passed along are kept in an arbitrary scalar
  type `F`; where the code computes with them the scalar type is a field
  (exact arithmetic), and `glm::sqrt` is a parameter of the functions that
  need it.
-/

namespace age

/-! ## glm vectors -/

/-- Two-component vector, `glm::vec2`. -/
structure Vec2 (F : Type) where
  x : F
  y : F
deriving DecidableEq

/-- Three-component vector, `glm::vec3`. -/
@[ext]
structure Vec3 (F : Type) where
  x : F
  y : F
  z : F
deriving DecidableEq

/-- Four-component vector, `glm::vec4`. -/
structure Vec4 (F : Type) where
  x : F
  y : F
  z : F
  w : F
deriving DecidableEq

/-! ## World objects and the call trace -/

/-- A world object as `Game` sees it through `std::shared_ptr<GameObject>`:
the address of the object and the value of `getPhysicsBody()`
(`none` is `nullptr`, `some b` is the address of its `PhysicsRigidBody`). -/
structure GameObject where
  ptr : Nat
  physicsBody : Option Nat
deriving DecidableEq

/-- The accessor `GameObject::getPhysicsBody`. -/
def GameObject.getPhysicsBody (o : GameObject) : Option Nat := o.physicsBody

/-- One call made by `Game` on a collaborator. -/
inductive Call (F : Type) where
  /-- `cam->onUpdate(dt)` -/
  | camOnUpdate (dt : F)
  /-- `gameObject->onUpdate(dt)` -/
  | objOnUpdate (obj : Nat) (dt : F)
  /-- `physics->onUpdate(dt)` -/
  | physicsOnUpdate (dt : F)
  /-- `gameObject->updateFromPhysics()` -/
  | objUpdateFromPhysics (obj : Nat)
  /-- `physics->addRigidBody(body)` -/
  | physicsAddRigidBody (body : Nat)
  /-- `physics->raycastClosest(src, dst)` -/
  | physicsRaycastClosest (src dst : Vec3 F)
  /-- `this->onGameObjectTouched(obj, touchPoint, touchDirection, touchNormal)` -/
  | onGameObjectTouched (obj : Nat) (touchPoint touchDirection touchNormal : Vec3 F)
deriving DecidableEq

/-- Is the call a physics step, `physics->onUpdate`? -/
def Call.isPhysicsStep {F : Type} : Call F → Bool
  | .physicsOnUpdate _ => true
  | _ => false

/-- Is the call a `gameObject->onUpdate`? -/
def Call.isObjOnUpdate {F : Type} : Call F → Bool
  | .objOnUpdate _ _ => true
  | _ => false

/-- Is the call a `gameObject->updateFromPhysics`? -/
def Call.isObjUpdateFromPhysics {F : Type} : Call F → Bool
  | .objUpdateFromPhysics _ => true
  | _ => false

/-- Is the call an invocation of the `onGameObjectTouched` hook? -/
def Call.isTouched {F : Type} : Call F → Bool
  | .onGameObjectTouched _ _ _ _ => true
  | _ => false

/-- The body handed over by a `physics->addRigidBody` call. -/
def Call.addedBody {F : Type} : Call F → Option Nat
  | .physicsAddRigidBody b => some b
  | _ => none

/-- The part of `Game` the simulation loop works on: the world list
(`std::vector<std::shared_ptr<GameObject>> worldList`) and the calls made so
far. -/
structure Game (F : Type) where
  worldList : List GameObject
  trace : List (Call F)

/-- A freshly constructed game: empty world list, nothing called yet. -/
def Game.init (F : Type) : Game F := { worldList := [], trace := [] }

/-- Record one call. -/
def Game.call {F : Type} (g : Game F) (c : Call F) : Game F :=
  { g with trace := g.trace ++ [c] }

/-- The bodies the physics engine was asked to register, in call order. -/
def Game.registeredBodies {F : Type} (g : Game F) : List Nat :=
  g.trace.filterMap Call.addedBody

/-- `Game::onUpdate` (Game.cpp 73-84). -/
def Game.onUpdate {F : Type} (g : Game F) (updateDuration : F) : Game F :=
  let g1 := g.call (.camOnUpdate updateDuration)
  let g2 := g1.worldList.foldl (fun s gameObject => s.call (.objOnUpdate gameObject.ptr updateDuration)) g1
  let g3 := g2.call (.physicsOnUpdate updateDuration)
  g3.worldList.foldl (fun s gameObject => s.call (.objUpdateFromPhysics gameObject.ptr)) g3

/-- `Game::addToWorldList` (Game.cpp 166-172). -/
def Game.addToWorldList {F : Type} (g : Game F) (gameObject : GameObject) : Game F :=
  let g1 :=
    match gameObject.getPhysicsBody with
    | some body => g.call (.physicsAddRigidBody body)
    | none => g
  { g1 with worldList := g1.worldList ++ [gameObject] }

/-- The calls made by one `Game::onUpdate(dt)`: what it adds to the trace. -/
def Game.tick {F : Type} (g : Game F) (dt : F) : List (Call F) :=
  (g.onUpdate dt).trace.drop g.trace.length

/-! ## glm arithmetic (exact, over a field) -/

section glm
variable {K : Type}

/-- Component-wise `glm::vec3 + glm::vec3`. -/
def Vec3.add [Add K] (a b : Vec3 K) : Vec3 K := ⟨a.x + b.x, a.y + b.y, a.z + b.z⟩

/-- Component-wise `glm::vec3 - glm::vec3`. -/
def Vec3.sub [Sub K] (a b : Vec3 K) : Vec3 K := ⟨a.x - b.x, a.y - b.y, a.z - b.z⟩

/-- The product `glm::vec3 * float`. -/
def Vec3.scale [Mul K] (a : Vec3 K) (s : K) : Vec3 K := ⟨a.x * s, a.y * s, a.z * s⟩

/-- The scalar product `glm::dot`. -/
def Vec3.dot [Add K] [Mul K] (a b : Vec3 K) : K := a.x * b.x + a.y * b.y + a.z * b.z

/-- The function `glm::normalize`: `v * inversesqrt(dot(v, v))`, with
`inversesqrt(x) = 1 / sqrt(x)`. -/
def Vec3.normalize [Field K] (sqrt : K → K) (v : Vec3 K) : Vec3 K :=
  v.scale (1 / sqrt (v.dot v))

/-- Component-wise `glm::vec4 - glm::vec4`. -/
def Vec4.sub [Sub K] (a b : Vec4 K) : Vec4 K := ⟨a.x - b.x, a.y - b.y, a.z - b.z, a.w - b.w⟩

/-- The product `glm::vec4 * float`. -/
def Vec4.scale [Mul K] (a : Vec4 K) (s : K) : Vec4 K := ⟨a.x * s, a.y * s, a.z * s, a.w * s⟩

/-- The quotient `glm::vec4 / float`, as in `v /= s`. -/
def Vec4.divScalar [Div K] (a : Vec4 K) (s : K) : Vec4 K := ⟨a.x / s, a.y / s, a.z / s, a.w / s⟩

/-- The conversion `glm::vec3(glm::vec4)`: the first three components. -/
def Vec4.xyz (a : Vec4 K) : Vec3 K := ⟨a.x, a.y, a.z⟩

/-- A `glm::mat4`, column-major: `c0 .. c3` are `m[0] .. m[3]`. -/
structure Mat4 (K : Type) where
  c0 : Vec4 K
  c1 : Vec4 K
  c2 : Vec4 K
  c3 : Vec4 K

/-- The product `glm::mat4 * glm::vec4`. -/
def Mat4.mulVec [Add K] [Mul K] (m : Mat4 K) (v : Vec4 K) : Vec4 K :=
  ⟨m.c0.x * v.x + m.c1.x * v.y + m.c2.x * v.z + m.c3.x * v.w,
   m.c0.y * v.x + m.c1.y * v.y + m.c2.y * v.z + m.c3.y * v.w,
   m.c0.z * v.x + m.c1.z * v.y + m.c2.z * v.z + m.c3.z * v.w,
   m.c0.w * v.x + m.c1.w * v.y + m.c2.w * v.z + m.c3.w * v.w⟩

/-- The product `glm::mat4 * glm::mat4`: column `j` is `a * b[j]`. -/
def Mat4.mul [Add K] [Mul K] (a b : Mat4 K) : Mat4 K :=
  ⟨a.mulVec b.c0, a.mulVec b.c1, a.mulVec b.c2, a.mulVec b.c3⟩

/-- The matrix of cofactors that `glm::inverse` builds before dividing by the
determinant (`Inverse` in glm's `compute_inverse` for 4x4 matrices). -/
def Mat4.cofactors [Ring K] (m : Mat4 K) : Mat4 K :=
  let coef00 := m.c2.z * m.c3.w - m.c3.z * m.c2.w
  let coef02 := m.c1.z * m.c3.w - m.c3.z * m.c1.w
  let coef03 := m.c1.z * m.c2.w - m.c2.z * m.c1.w
  let coef04 := m.c2.y * m.c3.w - m.c3.y * m.c2.w
  let coef06 := m.c1.y * m.c3.w - m.c3.y * m.c1.w
  let coef07 := m.c1.y * m.c2.w - m.c2.y * m.c1.w
  let coef08 := m.c2.y * m.c3.z - m.c3.y * m.c2.z
  let coef10 := m.c1.y * m.c3.z - m.c3.y * m.c1.z
  let coef11 := m.c1.y * m.c2.z - m.c2.y * m.c1.z
  let coef12 := m.c2.x * m.c3.w - m.c3.x * m.c2.w
  let coef14 := m.c1.x * m.c3.w - m.c3.x * m.c1.w
  let coef15 := m.c1.x * m.c2.w - m.c2.x * m.c1.w
  let coef16 := m.c2.x * m.c3.z - m.c3.x * m.c2.z
  let coef18 := m.c1.x * m.c3.z - m.c3.x * m.c1.z
  let coef19 := m.c1.x * m.c2.z - m.c2.x * m.c1.z
  let coef20 := m.c2.x * m.c3.y - m.c3.x * m.c2.y
  let coef22 := m.c1.x * m.c3.y - m.c3.x * m.c1.y
  let coef23 := m.c1.x * m.c2.y - m.c2.x * m.c1.y
  ⟨⟨  m.c1.y * coef00 - m.c1.z * coef04 + m.c1.w * coef08,
     -(m.c0.y * coef00 - m.c0.z * coef04 + m.c0.w * coef08),
       m.c0.y * coef02 - m.c0.z * coef06 + m.c0.w * coef10,
     -(m.c0.y * coef03 - m.c0.z * coef07 + m.c0.w * coef11)⟩,
   ⟨-(m.c1.x * coef00 - m.c1.z * coef12 + m.c1.w * coef16),
       m.c0.x * coef00 - m.c0.z * coef12 + m.c0.w * coef16,
     -(m.c0.x * coef02 - m.c0.z * coef14 + m.c0.w * coef18),
       m.c0.x * coef03 - m.c0.z * coef15 + m.c0.w * coef19⟩,
   ⟨  m.c1.x * coef04 - m.c1.y * coef12 + m.c1.w * coef20,
     -(m.c0.x * coef04 - m.c0.y * coef12 + m.c0.w * coef20),
       m.c0.x * coef06 - m.c0.y * coef14 + m.c0.w * coef22,
     -(m.c0.x * coef07 - m.c0.y * coef15 + m.c0.w * coef23)⟩,
   ⟨-(m.c1.x * coef08 - m.c1.y * coef16 + m.c1.z * coef20),
       m.c0.x * coef08 - m.c0.y * coef16 + m.c0.z * coef20,
     -(m.c0.x * coef10 - m.c0.y * coef18 + m.c0.z * coef22),
       m.c0.x * coef11 - m.c0.y * coef19 + m.c0.z * coef23⟩⟩

/-- The determinant as `glm::inverse` computes it (`Dot1`): the first column of
the matrix against the first row of the cofactor matrix. -/
def Mat4.determinant [Ring K] (m : Mat4 K) : K :=
  (m.c0.x * m.cofactors.c0.x + m.c0.y * m.cofactors.c1.x)
    + (m.c0.z * m.cofactors.c2.x + m.c0.w * m.cofactors.c3.x)

/-- The function `glm::inverse` on a `glm::mat4`: the cofactor matrix times
`1 / determinant`. -/
def Mat4.inverse [Field K] (m : Mat4 K) : Mat4 K :=
  let oneOverDeterminant := 1 / m.determinant
  ⟨m.cofactors.c0.scale oneOverDeterminant, m.cofactors.c1.scale oneOverDeterminant,
   m.cofactors.c2.scale oneOverDeterminant, m.cofactors.c3.scale oneOverDeterminant⟩

/-- The matrix as a Mathlib matrix: row `i`, column `j` holds component `i` of
column `j`. -/
def Mat4.toMatrix (m : Mat4 K) : Matrix (Fin 4) (Fin 4) K :=
  !![m.c0.x, m.c1.x, m.c2.x, m.c3.x;
     m.c0.y, m.c1.y, m.c2.y, m.c3.y;
     m.c0.z, m.c1.z, m.c2.z, m.c3.z;
     m.c0.w, m.c1.w, m.c2.w, m.c3.w]

/-- The vector as a Mathlib vector. -/
def Vec4.toFun (v : Vec4 K) : Fin 4 → K := ![v.x, v.y, v.z, v.w]

end glm

/-! ## Touch picking -/

/-- What `Game` reads from its camera: `getProjectionMatrix()` and
`getViewMatrix()`. -/
structure Camera (K : Type) where
  projectionMatrix : Mat4 K
  viewMatrix : Mat4 K

/-- The window size kept by `ManagerWindowing` (`getWindowWidth()`,
`getWindowHeight()`), in pixels. -/
structure ManagerWindowing where
  windowWidth : Int
  windowHeight : Int

/-- A ray: `origin` and `direction`. -/
structure Ray (K : Type) where
  origin : Vec3 K
  direction : Vec3 K

/-- The result of `PhysicsEngine::raycastClosest`: the hit object (`none` is
`nullptr`, nothing hit), the hit point and the surface normal there. -/
structure RaycastResult (K : Type) where
  gameObject : Option Nat
  hitPoint : Vec3 K
  hitNormal : Vec3 K

/-- The normalised device coordinates of a window position, as computed at the
start of `Game::getTouchRay` (Game.cpp 190-194). -/
def Game.ndcPosition {K : Type} [Field K] (win : ManagerWindowing) (windowTouchPosition : Vec2 K) :
    Vec2 K :=
  let p0 : Vec2 K := ⟨windowTouchPosition.x, (win.windowHeight : K) - windowTouchPosition.y⟩
  let p1 : Vec2 K := ⟨p0.x / (win.windowWidth : K), p0.y / (win.windowHeight : K)⟩
  ⟨(p1.x - 1 / 2) * 2, (p1.y - 1 / 2) * 2⟩

/-- `Game::getTouchRay` (Game.cpp 187-206). -/
def Game.getTouchRay {K : Type} [Field K] (sqrt : K → K) (cam : Camera K) (win : ManagerWindowing)
    (windowTouchPosition : Vec2 K) : Ray K :=
  let invProjectionView := (cam.projectionMatrix.mul cam.viewMatrix).inverse
  let ndcPosition := Game.ndcPosition win windowTouchPosition
  let from0 : Vec4 K := ⟨ndcPosition.x, ndcPosition.y, -1, 1⟩
  let to0 : Vec4 K := ⟨ndcPosition.x, ndcPosition.y, 0, 1⟩
  let from1 := invProjectionView.mulVec from0
  let from2 := from1.divScalar from1.w
  let to1 := invProjectionView.mulVec to0
  let to2 := to1.divScalar to1.w
  { origin := from2.xyz, direction := (to2.sub from2).xyz.normalize sqrt }

/-- `Game::raycastTouch` (Game.cpp 177-185).  The closest-hit query of the
physics engine is the parameter `raycastClosest`. -/
def Game.raycastTouch {K : Type} [Field K] (sqrt : K → K)
    (raycastClosest : Vec3 K → Vec3 K → RaycastResult K)
    (cam : Camera K) (win : ManagerWindowing)
    (g : Game K) (windowTouchPosition : Vec2 K) (length : K) : Game K :=
  let ray := Game.getTouchRay sqrt cam win windowTouchPosition
  let g1 := g.call (.physicsRaycastClosest ray.origin (ray.origin.add (ray.direction.scale length)))
  let result := raycastClosest ray.origin (ray.origin.add (ray.direction.scale length))
  match result.gameObject with
  | some gameObject =>
      g1.call (.onGameObjectTouched gameObject result.hitPoint ray.direction result.hitNormal)
  | none => g1

/-- `Game::onTouchDownEvent` (Game.cpp 150-153): a picking ray of length 1000,
and the event is reported as handled. -/
def Game.onTouchDownEvent {K : Type} [Field K] (sqrt : K → K)
    (raycastClosest : Vec3 K → Vec3 K → RaycastResult K)
    (cam : Camera K) (win : ManagerWindowing) (g : Game K) (x y : K) : Game K × Bool :=
  (Game.raycastTouch sqrt raycastClosest cam win g ⟨x, y⟩ 1000, true)

/-! ## PhysicsRigidBody: the wrappers around the engine body -/

/-- A `float` by kind: a finite value, an infinity, or a NaN. -/
inductive FloatValue where
  | finite (value : ℚ)
  | infinity (negative : Bool)
  | nan
deriving DecidableEq

/-- The test `std::isfinite`. -/
def FloatValue.isFinite : FloatValue → Bool
  | .finite _ => true
  | _ => false

/-- Are all three components finite? -/
def Vec3.allFinite (v : Vec3 FloatValue) : Bool :=
  v.x.isFinite && v.y.isFinite && v.z.isFinite

/-- One call received by the engine body (`btRigidBody`) behind a
`PhysicsRigidBody`; the vectors are the `btVector3` arguments. -/
inductive BodyCall (F : Type) where
  | applyCentralForce (force : Vec3 F)
  | applyTorque (torque : Vec3 F)
  | applyForce (force relPos : Vec3 F)
  | clearForces
  | setLinearVelocity (velocity : Vec3 F)
  | setAngularVelocity (velocity : Vec3 F)
deriving DecidableEq

/-- Are all vector arguments of the call finite? -/
def BodyCall.allFinite : BodyCall FloatValue → Bool
  | .applyCentralForce f => f.allFinite
  | .applyTorque t => t.allFinite
  | .applyForce f r => f.allFinite && r.allFinite
  | .clearForces => true
  | .setLinearVelocity v => v.allFinite
  | .setAngularVelocity v => v.allFinite

/-- A `PhysicsRigidBody`, seen through its member `body`: the calls the engine
body has received, in order. -/
structure PhysicsRigidBody (F : Type) where
  body : List (BodyCall F)

/-- `PhysicsRigidBody::applyCentralForce` (PhysicsRigidBody.h 52-54). -/
def PhysicsRigidBody.applyCentralForce {F : Type} (b : PhysicsRigidBody F) (force : Vec3 F) :
    PhysicsRigidBody F :=
  { body := b.body ++ [.applyCentralForce ⟨force.x, force.y, force.z⟩] }

/-- `PhysicsRigidBody::applyTorque` (PhysicsRigidBody.h 56-58). -/
def PhysicsRigidBody.applyTorque {F : Type} (b : PhysicsRigidBody F) (torque : Vec3 F) :
    PhysicsRigidBody F :=
  { body := b.body ++ [.applyTorque ⟨torque.x, torque.y, torque.z⟩] }

/-- `PhysicsRigidBody::applyForce` (PhysicsRigidBody.h 60-63). -/
def PhysicsRigidBody.applyForce {F : Type} (b : PhysicsRigidBody F) (force relPos : Vec3 F) :
    PhysicsRigidBody F :=
  { body := b.body ++ [.applyForce ⟨force.x, force.y, force.z⟩ ⟨relPos.x, relPos.y, relPos.z⟩] }

/-- `PhysicsRigidBody::clearForces` (PhysicsRigidBody.h 65). -/
def PhysicsRigidBody.clearForces {F : Type} (b : PhysicsRigidBody F) : PhysicsRigidBody F :=
  { body := b.body ++ [.clearForces] }

/-- `PhysicsRigidBody::setLinearVelocity` (PhysicsRigidBody.h 67-69). -/
def PhysicsRigidBody.setLinearVelocity {F : Type} (b : PhysicsRigidBody F) (velocity : Vec3 F) :
    PhysicsRigidBody F :=
  { body := b.body ++ [.setLinearVelocity ⟨velocity.x, velocity.y, velocity.z⟩] }

/-- `PhysicsRigidBody::setAngularVelocity` (PhysicsRigidBody.h 71-73). -/
def PhysicsRigidBody.setAngularVelocity {F : Type} (b : PhysicsRigidBody F) (velocity : Vec3 F) :
    PhysicsRigidBody F :=
  { body := b.body ++ [.setAngularVelocity ⟨velocity.x, velocity.y, velocity.z⟩] }

/-! ## TestGame: stick input and the quadcopter parameters -/

/-- One call received by the `Quadcopter` held in `TestGame::uav`. -/
inductive QuadcopterCall (F : Type) where
  | onRollThrustInput (input : Vec2 F)
  | onYawPitchInput (input : Vec2 F)
deriving DecidableEq

/-- The part of `TestGame` the stick entry points work on: the member `uav`,
seen as the calls it has received, in order. -/
structure TestGame (F : Type) where
  uav : List (QuadcopterCall F)

/-- `TestGame::onRollThrustInput` (TestGame.cpp 101-103). -/
def TestGame.onRollThrustInput {F : Type} (t : TestGame F) (roll thrust : F) : TestGame F :=
  { uav := t.uav ++ [.onRollThrustInput ⟨roll, thrust⟩] }

/-- `TestGame::onYawPitchInput` (TestGame.cpp 105-107). -/
def TestGame.onYawPitchInput {F : Type} (t : TestGame F) (yaw pitch : F) : TestGame F :=
  { uav := t.uav ++ [.onYawPitchInput ⟨yaw, pitch⟩] }

/-- `onRollThrustInputJNI` (TestGame.cpp 22-24). -/
def onRollThrustInputJNI {F : Type} (game : TestGame F) (roll thrust : F) : TestGame F :=
  game.onRollThrustInput roll thrust

/-- `onYawPitchInputJNI` (TestGame.cpp 26-28). -/
def onYawPitchInputJNI {F : Type} (game : TestGame F) (yaw pitch : F) : TestGame F :=
  game.onYawPitchInput yaw pitch

/-- Clamping of one stick axis to `[-1, 1]`, in the words of the specification
(this is the reference the entry points are compared with, not code of the
repository). -/
def specClampStick {K : Type} [LinearOrderedField K] (x : K) : K := max (-1) (min x 1)

/-- The fields of `Quadcopter::Parameters` that `TestGame::onCreate` fills in. -/
structure Quadcopter.Parameters (K : Type) where
  mass : K
  maxRoll : K
  maxPitch : K
  maxRollRate : K
  maxPitchRate : K
  maxYawRate : K
  maxThrust : K
  controlRates2MotorRotationSpeed : K
  angle_kp : K
  angle_ki : K
  angle_kd : K
  angleRate_kp : K
  angleRate_ki : K
  angleRate_kd : K
  motorRotationSpeed2Thrust : K

/-- The function `glm::radians`: degrees times the constant
`0.01745329251994329576923690768489`. -/
def glm.radians {K : Type} [Field K] (degrees : K) : K :=
  degrees * (1745329251994329576923690768489 / 100000000000000000000000000000000)

/-- The parameter set that `TestGame::onCreate` hands to the `Quadcopter`
constructor (TestGame.cpp 65-88). -/
def TestGame.onCreateParams (K : Type) [Field K] : Quadcopter.Parameters K :=
  { mass := 1
    maxRoll := glm.radians 35
    maxPitch := glm.radians 35
    maxRollRate := glm.radians 360
    maxPitchRate := glm.radians 360
    maxYawRate := glm.radians 120
    maxThrust := 15
    controlRates2MotorRotationSpeed := 150
    angle_kp := 5 / 2
    angle_ki := 0
    angle_kd := 8 / 10
    angleRate_kp := 2
    angleRate_ki := 0
    angleRate_kd := 0
    motorRotationSpeed2Thrust := 2 / 1000 }

/-! ## Orientation of a game object -/

/-- Modelled from the spec: the orientation part of `Model`, the class behind
`GameObject::model` (`Model.h` and `GameObject.cpp` are not among the sources;
`GameObject.h` only declares the setters and forwards the getters to it).  The
three axes are the columns of the orientation matrix returned by
`getOrientation()`. -/
structure Model (K : Type) where
  orientationX : Vec3 K
  orientationY : Vec3 K
  orientationZ : Vec3 K

/-- The orientation of a freshly constructed object: the identity matrix. -/
def Model.identity (K : Type) [Field K] : Model K :=
  { orientationX := ⟨1, 0, 0⟩, orientationY := ⟨0, 1, 0⟩, orientationZ := ⟨0, 0, 1⟩ }

/-! ## TestGame: reaction to a touched object -/

/-- Modelled from the spec: the state of a world object that
`TestGame::onGameObjectTouched` acts on: its pose (orientation and position, spec
3) and the central forces handed to it since the last physics step (spec 4.1),
in order.  `GameObject.cpp` and `PhysicsRigidBody.cpp` are not among the
sources. -/
structure ObjectState (K : Type) where
  orientation : Model K
  position : Vec3 K
  centralForces : List (Vec3 K)

/-- One call made by `TestGame::onGameObjectTouched` on a world object, with the
address of the object. -/
inductive ObjectCall (K : Type) where
  /-- `obj->applyCentralForce(force)` -/
  | applyCentralForce (obj : Nat) (force : Vec3 K)
  /-- `obj->setOrientation(orientation)` -/
  | setOrientation (obj : Nat) (orientation : Model K)
  /-- `obj->setPosition(position)` -/
  | setPosition (obj : Nat) (position : Vec3 K)

/-- What `TestGame::onGameObjectTouched` works on: the address held in the member
`uav`, the world objects by address, and the calls made on them so far. -/
structure TestScene (K : Type) where
  uav : Nat
  objects : Nat → ObjectState K
  calls : List (ObjectCall K)

/-- Modelled from the spec: `GameObject::applyCentralForce(force)` on the object
at address `obj` (body not among the sources): the force is accumulated for the
next physics step (spec 4.1); the pose is not touched. -/
def TestScene.applyCentralForce {K : Type} (s : TestScene K) (obj : Nat) (force : Vec3 K) :
    TestScene K :=
  { s with
    objects := Function.update s.objects obj
      { s.objects obj with centralForces := (s.objects obj).centralForces ++ [force] }
    calls := s.calls ++ [.applyCentralForce obj force] }

/-- Modelled from the spec: `GameObject::setOrientation(orientation)` on the object
at address `obj` (body not among the sources): an absolute pose set (spec 4.2);
the orientation read back is the one given (spec 8, round trip). -/
def TestScene.setOrientation {K : Type} (s : TestScene K) (obj : Nat) (orientation : Model K) :
    TestScene K :=
  { s with
    objects := Function.update s.objects obj { s.objects obj with orientation := orientation }
    calls := s.calls ++ [.setOrientation obj orientation] }

/-- Modelled from the spec: `GameObject::setPosition(position)` on the object at
address `obj` (body not among the sources): an absolute pose set (spec 4.2); the
position read back is the one given (spec 8, round trip). -/
def TestScene.setPosition {K : Type} (s : TestScene K) (obj : Nat) (position : Vec3 K) :
    TestScene K :=
  { s with
    objects := Function.update s.objects obj { s.objects obj with position := position }
    calls := s.calls ++ [.setPosition obj position] }

set_option linter.unusedVariables false in
/-- `TestGame::onGameObjectTouched` (TestGame.cpp 109-114).  `glm::mat3(1.0f)` is
the identity orientation. -/
def TestGame.onGameObjectTouched {K : Type} [Field K] (s : TestScene K) (gameObject : Nat)
    (touchPoint touchDirection touchNormal : Vec3 K) : TestScene K :=
  let s1 := s.applyCentralForce gameObject (touchDirection.scale 400)
  let s2 := s1.setOrientation s1.uav (Model.identity K)
  s2.setPosition s2.uav ⟨0, 0, 1 / 2⟩

/-! ## Helper lemmas on the trace -/

theorem call_worldList {F : Type} (s : Game F) (c : Call F) :
    (s.call c).worldList = s.worldList := rfl

theorem call_trace {F : Type} (s : Game F) (c : Call F) :
    (s.call c).trace = s.trace ++ [c] := rfl

theorem foldl_call_worldList {F : Type} (f : GameObject → Call F) (l : List GameObject)
    (s : Game F) :
    (l.foldl (fun s o => s.call (f o)) s).worldList = s.worldList := by
  induction l generalizing s with
  | nil => rfl
  | cons a t ih => rw [List.foldl_cons, ih, call_worldList]

theorem foldl_call_trace {F : Type} (f : GameObject → Call F) (l : List GameObject)
    (s : Game F) :
    (l.foldl (fun s o => s.call (f o)) s).trace = s.trace ++ l.map f := by
  induction l generalizing s with
  | nil => simp
  | cons a t ih => rw [List.foldl_cons, ih, call_trace]; simp

theorem onUpdate_worldList {F : Type} (g : Game F) (dt : F) :
    (g.onUpdate dt).worldList = g.worldList := by
  unfold Game.onUpdate
  simp only [foldl_call_worldList, call_worldList]

theorem onUpdate_trace {F : Type} (g : Game F) (dt : F) :
    (g.onUpdate dt).trace =
      g.trace ++ (Call.camOnUpdate dt :: g.worldList.map (fun o => Call.objOnUpdate o.ptr dt))
        ++ (Call.physicsOnUpdate dt :: g.worldList.map (fun o => Call.objUpdateFromPhysics o.ptr)) := by
  unfold Game.onUpdate
  simp only [foldl_call_worldList, foldl_call_trace, call_worldList, call_trace]
  simp

theorem addToWorldList_worldList {F : Type} (g : Game F) (o : GameObject) :
    (g.addToWorldList o).worldList = g.worldList ++ [o] := by
  unfold Game.addToWorldList
  cases o.getPhysicsBody <;> rfl

theorem addToWorldList_trace {F : Type} (g : Game F) (o : GameObject) :
    (g.addToWorldList o).trace =
      g.trace ++ (match o.physicsBody with
        | some b => [Call.physicsAddRigidBody b]
        | none => []) := by
  unfold Game.addToWorldList GameObject.getPhysicsBody
  cases o.physicsBody <;> simp [Game.call]

theorem foldl_addToWorldList_worldList {F : Type} (objs : List GameObject) (g : Game F) :
    (objs.foldl Game.addToWorldList g).worldList = g.worldList ++ objs := by
  induction objs generalizing g with
  | nil => simp
  | cons a t ih => rw [List.foldl_cons, ih, addToWorldList_worldList]; simp

theorem tick_eq {F : Type} (g : Game F) (dt : F) :
    g.tick dt =
      (Call.camOnUpdate dt :: g.worldList.map (fun o => Call.objOnUpdate o.ptr dt))
        ++ (Call.physicsOnUpdate dt :: g.worldList.map (fun o => Call.objUpdateFromPhysics o.ptr)) := by
  unfold Game.tick
  rw [onUpdate_trace, List.append_assoc, List.drop_left]

theorem registeredBodies_addToWorldList {F : Type} (g : Game F) (o : GameObject) :
    (g.addToWorldList o).registeredBodies =
      g.registeredBodies ++ (match o.physicsBody with
        | some b => [b]
        | none => []) := by
  unfold Game.registeredBodies
  rw [addToWorldList_trace]
  cases o.physicsBody <;> simp [Call.addedBody]

/-! ## The simulation loop: order of effects within a tick -/

/-- C1: for every world list and every `dt`, the calls made by one
`Game::onUpdate(dt)` split around exactly one physics step by `dt`: before it
come the camera update and `onUpdate(dt)` of every world object, and nothing
there is a physics step or an `updateFromPhysics`; after it comes
`updateFromPhysics()` of every world object, and nothing there is a physics step
or an object `onUpdate`.  The world list itself is left as it was. -/
theorem C1_onUpdate_fixed_order {F : Type} (g : Game F) (dt : F) :
    ∃ pre post : List (Call F),
      (g.onUpdate dt).trace = g.trace ++ pre ++ Call.physicsOnUpdate dt :: post ∧
      pre = Call.camOnUpdate dt :: g.worldList.map (fun o => Call.objOnUpdate o.ptr dt) ∧
      post = g.worldList.map (fun o => Call.objUpdateFromPhysics o.ptr) ∧
      (∀ o ∈ g.worldList, Call.objOnUpdate o.ptr dt ∈ pre) ∧
      (∀ c ∈ pre, c.isPhysicsStep = false ∧ c.isObjUpdateFromPhysics = false) ∧
      (∀ o ∈ g.worldList, Call.objUpdateFromPhysics o.ptr ∈ post) ∧
      (∀ c ∈ post, c.isPhysicsStep = false ∧ c.isObjOnUpdate = false) ∧
      ((g.tick dt).filter Call.isPhysicsStep = [Call.physicsOnUpdate dt]) ∧
      (g.onUpdate dt).worldList = g.worldList := by
  refine ⟨_, _, ?_, rfl, rfl, ?_, ?_, ?_, ?_, ?_, onUpdate_worldList g dt⟩
  · rw [onUpdate_trace]
  · intro o ho
    exact List.mem_cons_of_mem _ (List.mem_map.mpr ⟨o, ho, rfl⟩)
  · intro c hc
    rcases List.mem_cons.mp hc with h | h
    · subst h; exact ⟨rfl, rfl⟩
    · obtain ⟨o, _, rfl⟩ := List.mem_map.mp h
      exact ⟨rfl, rfl⟩
  · intro o ho
    exact List.mem_map.mpr ⟨o, ho, rfl⟩
  · intro c hc
    obtain ⟨o, _, rfl⟩ := List.mem_map.mp hc
    exact ⟨rfl, rfl⟩
  · rw [tick_eq]
    simp [List.filter_append, List.filter_cons, List.filter_map, Call.isPhysicsStep,
      Function.comp_def]

/-! ## Insertion into the world -/

/-- C2 (as stated, refuted): the object at address 1 with rigid body 7 is
inserted twice into a fresh game.  The second call is neither rejected nor a
no-op: the state after it differs from the state after the first call, the
world list holds the object twice, and the engine has been asked to register
body 7 twice, not once. -/
theorem C2_double_insert_registers_twice :
    let o : GameObject := { ptr := 1, physicsBody := some 7 }
    let g1 := (Game.init ℚ).addToWorldList o
    let g2 := g1.addToWorldList o
    g1.registeredBodies = [7] ∧
    g2.registeredBodies = [7, 7] ∧
    ¬ (g2.registeredBodies.count 7 = 1) ∧
    g2.worldList = [o, o] ∧
    g2.worldList ≠ g1.worldList ∧
    g2.trace ≠ g1.trace := by
  decide

/-- C2 (amended): `addToWorldList` has no guard against repeated insertion.
One call for an object with rigid body `b` adds exactly one registration of `b`;
a second call for the same object appends the object to the world list again
and asks the engine to register `b` a second time. -/
theorem C2_addToWorldList_no_duplicate_guard {F : Type} (g : Game F) (o : GameObject) (b : Nat)
    (hb : o.getPhysicsBody = some b) :
    (g.addToWorldList o).registeredBodies.count b = g.registeredBodies.count b + 1 ∧
    ((g.addToWorldList o).addToWorldList o).registeredBodies.count b
      = g.registeredBodies.count b + 2 ∧
    ((g.addToWorldList o).addToWorldList o).registeredBodies = g.registeredBodies ++ [b, b] ∧
    ((g.addToWorldList o).addToWorldList o).worldList = g.worldList ++ [o, o] := by
  have hb2 : o.physicsBody = some b := hb
  simp [registeredBodies_addToWorldList, addToWorldList_worldList, hb2]

/-- Witness for C2 (amended): a fresh game and the object at address 1 with
rigid body 7. -/
theorem C2_addToWorldList_no_duplicate_guard_witness :
    let o : GameObject := { ptr := 1, physicsBody := some 7 }
    let g := Game.init ℚ
    o.getPhysicsBody = some 7 ∧
    ((g.addToWorldList o).addToWorldList o).registeredBodies.count 7 = 2 ∧
    ((g.addToWorldList o).addToWorldList o).worldList = [o, o] := by
  intro o g
  have h := C2_addToWorldList_no_duplicate_guard g o 7 rfl
  exact ⟨rfl, by simpa [g, Game.init, Game.registeredBodies] using h.2.1,
    by simpa [g, Game.init] using h.2.2.2⟩

/-- C3: the world list is insertion-ordered and that order is the visiting
order of a tick.  Starting from an empty world list, inserting the distinct
objects `o1..on` gives exactly the world list `[o1..on]` (every call appends at
the end and keeps what was there); one `onUpdate(dt)` then calls, in this order:
the camera update, `onUpdate(dt)` on `o1..on`, the physics step,
`updateFromPhysics()` on `o1..on`.  Each object gets each of the two calls
exactly once, and every object `onUpdate` carries the same `dt`. -/
theorem C3_world_list_insertion_order {F : Type} [DecidableEq F] (g0 : Game F)
    (objs : List GameObject) (dt : F)
    (h0 : g0.worldList = []) (hd : (objs.map GameObject.ptr).Nodup) :
    (objs.foldl Game.addToWorldList g0).worldList = objs ∧
    (∀ (s : Game F) (o : GameObject), (s.addToWorldList o).worldList = s.worldList ++ [o]) ∧
    (objs.foldl Game.addToWorldList g0).tick dt =
      (Call.camOnUpdate dt :: objs.map (fun o => Call.objOnUpdate o.ptr dt))
        ++ (Call.physicsOnUpdate dt :: objs.map (fun o => Call.objUpdateFromPhysics o.ptr)) ∧
    ((objs.foldl Game.addToWorldList g0).tick dt).filter Call.isObjOnUpdate
      = objs.map (fun o => Call.objOnUpdate o.ptr dt) ∧
    ((objs.foldl Game.addToWorldList g0).tick dt).filter Call.isObjUpdateFromPhysics
      = objs.map (fun o => Call.objUpdateFromPhysics o.ptr) ∧
    (∀ o ∈ objs,
      ((objs.foldl Game.addToWorldList g0).tick dt).count (Call.objOnUpdate o.ptr dt) = 1 ∧
      ((objs.foldl Game.addToWorldList g0).tick dt).count (Call.objUpdateFromPhysics o.ptr) = 1) ∧
    (∀ (p : Nat) (dt1 : F),
      Call.objOnUpdate p dt1 ∈ (objs.foldl Game.addToWorldList g0).tick dt → dt1 = dt) := by
  have hwl : (objs.foldl Game.addToWorldList g0).worldList = objs := by
    rw [foldl_addToWorldList_worldList, h0, List.nil_append]
  have htick := tick_eq (objs.foldl Game.addToWorldList g0) dt
  rw [hwl] at htick
  refine ⟨hwl, addToWorldList_worldList, htick, ?_, ?_, ?_, ?_⟩
  · rw [htick]
    simp [List.filter_append, List.filter_cons, List.filter_map, Call.isObjOnUpdate,
      Function.comp_def]
  · rw [htick]
    simp [List.filter_append, List.filter_cons, List.filter_map, Call.isObjUpdateFromPhysics,
      Function.comp_def]
  · intro o ho
    have hmem : o.ptr ∈ objs.map GameObject.ptr := List.mem_map.mpr ⟨o, ho, rfl⟩
    have hone : (objs.map GameObject.ptr).count o.ptr = 1 := List.count_eq_one_of_mem hd hmem
    have hinj1 : Function.Injective (fun p : Nat => (Call.objOnUpdate p dt : Call F)) := by
      intro a b hab
      injection hab
    have hinj2 : Function.Injective (fun p : Nat => (Call.objUpdateFromPhysics p : Call F)) := by
      intro a b hab
      injection hab
    have hm1 : objs.map (fun o => (Call.objOnUpdate o.ptr dt : Call F))
        = (objs.map GameObject.ptr).map (fun p => Call.objOnUpdate p dt) := by
      rw [List.map_map]; rfl
    have hm2 : objs.map (fun o => (Call.objUpdateFromPhysics o.ptr : Call F))
        = (objs.map GameObject.ptr).map (fun p => Call.objUpdateFromPhysics p) := by
      rw [List.map_map]; rfl
    have hc1 : (objs.map (fun o => (Call.objOnUpdate o.ptr dt : Call F))).count
        (Call.objOnUpdate o.ptr dt) = 1 := by
      rw [hm1, List.count_map_of_injective _ _ hinj1, hone]
    have hc2 : (objs.map (fun o => (Call.objUpdateFromPhysics o.ptr : Call F))).count
        (Call.objUpdateFromPhysics o.ptr) = 1 := by
      rw [hm2, List.count_map_of_injective _ _ hinj2, hone]
    have hz1 : (objs.map (fun o => (Call.objUpdateFromPhysics o.ptr : Call F))).count
        (Call.objOnUpdate o.ptr dt) = 0 := by
      apply List.count_eq_zero_of_not_mem
      intro h
      obtain ⟨_, _, h⟩ := List.mem_map.mp h
      cases h
    have hz2 : (objs.map (fun o => (Call.objOnUpdate o.ptr dt : Call F))).count
        (Call.objUpdateFromPhysics o.ptr) = 0 := by
      apply List.count_eq_zero_of_not_mem
      intro h
      obtain ⟨_, _, h⟩ := List.mem_map.mp h
      cases h
    rw [htick]
    constructor
    · rw [List.count_append, List.count_cons, List.count_cons, hc1, hz1]
      simp
    · rw [List.count_append, List.count_cons, List.count_cons, hc2, hz2]
      simp
  · intro p dt1 hmem
    rw [htick] at hmem
    rcases List.mem_append.mp hmem with h | h
    · rcases List.mem_cons.mp h with h | h
      · cases h
      · obtain ⟨_, _, h⟩ := List.mem_map.mp h
        injection h with _ h2
        exact h2.symm
    · rcases List.mem_cons.mp h with h | h
      · cases h
      · obtain ⟨_, _, h⟩ := List.mem_map.mp h
        cases h

/-- Witness for C3: a box without a rigid body and two objects with one, inserted
into a fresh game, then one tick of a sixtieth of a second. -/
theorem C3_world_list_insertion_order_witness :
    (Game.init ℚ).worldList = [] ∧
    (([⟨10, some 100⟩, ⟨20, none⟩, ⟨30, some 300⟩] : List GameObject).map GameObject.ptr).Nodup ∧
    ((([⟨10, some 100⟩, ⟨20, none⟩, ⟨30, some 300⟩] : List GameObject).foldl
        Game.addToWorldList (Game.init ℚ)).worldList
      = [⟨10, some 100⟩, ⟨20, none⟩, ⟨30, some 300⟩]) ∧
    ((([⟨10, some 100⟩, ⟨20, none⟩, ⟨30, some 300⟩] : List GameObject).foldl
        Game.addToWorldList (Game.init ℚ)).tick (1 / 60)
      = [Call.camOnUpdate (1 / 60),
         Call.objOnUpdate 10 (1 / 60), Call.objOnUpdate 20 (1 / 60), Call.objOnUpdate 30 (1 / 60),
         Call.physicsOnUpdate (1 / 60),
         Call.objUpdateFromPhysics 10, Call.objUpdateFromPhysics 20,
         Call.objUpdateFromPhysics 30]) := by
  have h := C3_world_list_insertion_order (Game.init ℚ)
    [⟨10, some 100⟩, ⟨20, none⟩, ⟨30, some 300⟩] (1 / 60) rfl (by decide)
  exact ⟨rfl, by decide, h.1, by simpa using h.2.2.1⟩

/-- C4: `addToWorldList` registers the rigid body at insertion time exactly when
the object has one.  With `getPhysicsBody()` non-null the engine receives one
`addRigidBody` call, with that body, and nothing else; with `nullptr` the engine
receives nothing and its registrations are unchanged.  Either way the object is
appended to the world list. -/
theorem C4_addToWorldList_registers_iff_body {F : Type} (g : Game F) (o : GameObject) :
    (g.addToWorldList o).worldList = g.worldList ++ [o] ∧
    (g.addToWorldList o).trace =
      g.trace ++ (match o.getPhysicsBody with
        | some body => [Call.physicsAddRigidBody body]
        | none => []) ∧
    (g.addToWorldList o).registeredBodies =
      g.registeredBodies ++ (match o.getPhysicsBody with
        | some body => [body]
        | none => []) ∧
    ((g.addToWorldList o).registeredBodies ≠ g.registeredBodies ↔ o.getPhysicsBody ≠ none) := by
  refine ⟨addToWorldList_worldList g o, addToWorldList_trace g o,
    registeredBodies_addToWorldList g o, ?_⟩
  rw [registeredBodies_addToWorldList]
  unfold GameObject.getPhysicsBody
  cases o.physicsBody <;> simp

/-! ## glm: the inverse really inverts -/

theorem Mat4.mulVec_scale {K : Type} [CommRing K] (m : Mat4 K) (v : Vec4 K) (s : K) :
    m.mulVec (v.scale s) = (m.mulVec v).scale s := by
  simp only [Mat4.mulVec, Vec4.scale, Vec4.mk.injEq]
  refine ⟨?_, ?_, ?_, ?_⟩ <;> ring

theorem Mat4.mulVec_cofactors_mulVec {K : Type} [CommRing K] (m : Mat4 K) (v : Vec4 K) :
    m.mulVec (m.cofactors.mulVec v) = v.scale m.determinant := by
  obtain ⟨⟨a00, a01, a02, a03⟩, ⟨a10, a11, a12, a13⟩, ⟨a20, a21, a22, a23⟩,
    ⟨a30, a31, a32, a33⟩⟩ := m
  obtain ⟨vx, vy, vz, vw⟩ := v
  simp only [Mat4.mulVec, Mat4.determinant, Mat4.cofactors, Vec4.scale, Vec4.mk.injEq]
  refine ⟨?_, ?_, ?_, ?_⟩ <;> ring

theorem Mat4.inverse_mulVec {K : Type} [Field K] (m : Mat4 K) (v : Vec4 K) :
    m.inverse.mulVec v = (m.cofactors.mulVec v).scale (1 / m.determinant) := by
  simp only [Mat4.mulVec, Mat4.inverse, Vec4.scale, Vec4.mk.injEq]
  refine ⟨?_, ?_, ?_, ?_⟩ <;> ring

theorem Mat4.mulVec_inverse_mulVec {K : Type} [Field K] (m : Mat4 K) (v : Vec4 K)
    (hdet : m.determinant ≠ 0) :
    m.mulVec (m.inverse.mulVec v) = v := by
  rw [Mat4.inverse_mulVec, Mat4.mulVec_scale, Mat4.mulVec_cofactors_mulVec]
  obtain ⟨vx, vy, vz, vw⟩ := v
  simp only [Vec4.scale, Vec4.mk.injEq]
  refine ⟨?_, ?_, ?_, ?_⟩ <;> field_simp

theorem Mat4.toMatrix_mulVec {K : Type} [Field K] (m : Mat4 K) (v : Vec4 K) :
    m.toMatrix.mulVec v.toFun = (m.mulVec v).toFun := by
  funext i
  fin_cases i <;>
    simp [Mat4.toMatrix, Vec4.toFun, Mat4.mulVec, Matrix.mulVec, Matrix.dotProduct,
      Fin.sum_univ_succ] <;> ring

theorem Mat4.determinant_eq_det {K : Type} [Field K] (m : Mat4 K) :
    m.determinant = m.toMatrix.det := by
  have h1 : (Fin.castSucc (2 : Fin 3) : Fin 4) = 2 := rfl
  have h2 : (Fin.succ (2 : Fin 3) : Fin 4) = 3 := rfl
  have h3 : ((1 : Fin 4) < 3) := by decide
  have h4 : ((2 : Fin 4) < 3) := by decide
  rw [Matrix.det_succ_row_zero]
  simp [Fin.sum_univ_succ, Matrix.det_fin_three, Mat4.toMatrix, Mat4.determinant, Mat4.cofactors,
    Fin.succAbove, Matrix.submatrix, h1, h2, h3, h4]
  ring

theorem Mat4.determinant_ne_zero_iff {K : Type} [Field K] (m : Mat4 K) :
    m.determinant ≠ 0 ↔ IsUnit m.toMatrix := by
  rw [Mat4.determinant_eq_det, Matrix.isUnit_iff_isUnit_det, isUnit_iff_ne_zero]

/-! ## Touch picking -/

/-- C5: `raycastTouch(position, length)` asks the physics engine for the closest
hit between the origin of the touch ray and `origin + direction * length`, and
then calls `onGameObjectTouched` once if the result names a game object and not
at all otherwise.  The callback gets the hit object, the hit point, the
direction of the touch ray itself and the hit normal.  `onTouchDownEvent(x, y)`
is this with length 1000. -/
theorem C5_raycastTouch_callback {K : Type} [Field K] (sqrt : K → K)
    (raycastClosest : Vec3 K → Vec3 K → RaycastResult K)
    (cam : Camera K) (win : ManagerWindowing) (g : Game K) (pos : Vec2 K) (length : K) :
    (Game.raycastTouch sqrt raycastClosest cam win g pos length).worldList = g.worldList ∧
    (Game.raycastTouch sqrt raycastClosest cam win g pos length).trace =
      g.trace ++
        (Call.physicsRaycastClosest (Game.getTouchRay sqrt cam win pos).origin
            ((Game.getTouchRay sqrt cam win pos).origin.add
              ((Game.getTouchRay sqrt cam win pos).direction.scale length)) ::
          (match (raycastClosest (Game.getTouchRay sqrt cam win pos).origin
              ((Game.getTouchRay sqrt cam win pos).origin.add
                ((Game.getTouchRay sqrt cam win pos).direction.scale length))).gameObject with
            | some obj =>
                [Call.onGameObjectTouched obj
                  (raycastClosest (Game.getTouchRay sqrt cam win pos).origin
                    ((Game.getTouchRay sqrt cam win pos).origin.add
                      ((Game.getTouchRay sqrt cam win pos).direction.scale length))).hitPoint
                  (Game.getTouchRay sqrt cam win pos).direction
                  (raycastClosest (Game.getTouchRay sqrt cam win pos).origin
                    ((Game.getTouchRay sqrt cam win pos).origin.add
                      ((Game.getTouchRay sqrt cam win pos).direction.scale length))).hitNormal]
            | none => [])) ∧
    ((((Game.raycastTouch sqrt raycastClosest cam win g pos length).trace.drop
          g.trace.length).filter Call.isTouched).length = 1 ↔
      (raycastClosest (Game.getTouchRay sqrt cam win pos).origin
        ((Game.getTouchRay sqrt cam win pos).origin.add
          ((Game.getTouchRay sqrt cam win pos).direction.scale length))).gameObject ≠ none) ∧
    ((((Game.raycastTouch sqrt raycastClosest cam win g pos length).trace.drop
          g.trace.length).filter Call.isTouched) = [] ↔
      (raycastClosest (Game.getTouchRay sqrt cam win pos).origin
        ((Game.getTouchRay sqrt cam win pos).origin.add
          ((Game.getTouchRay sqrt cam win pos).direction.scale length))).gameObject = none) ∧
    (∀ x y : K, Game.onTouchDownEvent sqrt raycastClosest cam win g x y =
      (Game.raycastTouch sqrt raycastClosest cam win g ⟨x, y⟩ 1000, true)) := by
  refine ⟨?_, ?_, ?_, ?_, fun _ _ => rfl⟩
  · unfold Game.raycastTouch
    simp only []
    split <;> rfl
  · unfold Game.raycastTouch
    simp only []
    split <;> rename_i h <;> simp [h, Game.call]
  · unfold Game.raycastTouch
    simp only []
    split <;> rename_i h <;> simp [h, Game.call, Call.isTouched]
  · unfold Game.raycastTouch
    simp only []
    split <;> rename_i h <;> simp [h, Game.call, Call.isTouched]

/-- C10: `getTouchRay` unprojects the touch onto the near plane.  With `M` the
projection-view matrix, invertible, `n` the normalised device coordinates of
the touch and `f = M⁻¹ (n.x, n.y, -1, 1)` with `f.w ≠ 0`: the origin of the ray
is `f` divided by `f.w`, so that `M (origin, 1)` is `(n.x, n.y, -1, 1)` times the
non-zero scalar `1 / f.w`; and the direction is `normalize (t - origin)` with
`t` the vector `M⁻¹ (n.x, n.y, 0, 1)` divided by its `w`. -/
theorem C10_getTouchRay_unprojects {K : Type} [Field K] (sqrt : K → K) (cam : Camera K)
    (win : ManagerWindowing) (pos : Vec2 K)
    (hM : IsUnit (cam.projectionMatrix.mul cam.viewMatrix).toMatrix)
    (hw : ((cam.projectionMatrix.mul cam.viewMatrix).inverse.mulVec
      ⟨(Game.ndcPosition win pos).x, (Game.ndcPosition win pos).y, -1, 1⟩).w ≠ 0) :
    (Game.getTouchRay sqrt cam win pos).origin =
      (((cam.projectionMatrix.mul cam.viewMatrix).inverse.mulVec
          ⟨(Game.ndcPosition win pos).x, (Game.ndcPosition win pos).y, -1, 1⟩).divScalar
        ((cam.projectionMatrix.mul cam.viewMatrix).inverse.mulVec
          ⟨(Game.ndcPosition win pos).x, (Game.ndcPosition win pos).y, -1, 1⟩).w).xyz ∧
    (cam.projectionMatrix.mul cam.viewMatrix).mulVec
        ⟨(Game.getTouchRay sqrt cam win pos).origin.x, (Game.getTouchRay sqrt cam win pos).origin.y,
          (Game.getTouchRay sqrt cam win pos).origin.z, 1⟩ =
      (⟨(Game.ndcPosition win pos).x, (Game.ndcPosition win pos).y, -1, 1⟩ : Vec4 K).scale
        (1 / ((cam.projectionMatrix.mul cam.viewMatrix).inverse.mulVec
          ⟨(Game.ndcPosition win pos).x, (Game.ndcPosition win pos).y, -1, 1⟩).w) ∧
    (1 / ((cam.projectionMatrix.mul cam.viewMatrix).inverse.mulVec
      ⟨(Game.ndcPosition win pos).x, (Game.ndcPosition win pos).y, -1, 1⟩).w ≠ 0) ∧
    (Game.getTouchRay sqrt cam win pos).direction =
      (((((cam.projectionMatrix.mul cam.viewMatrix).inverse.mulVec
            ⟨(Game.ndcPosition win pos).x, (Game.ndcPosition win pos).y, 0, 1⟩).divScalar
          ((cam.projectionMatrix.mul cam.viewMatrix).inverse.mulVec
            ⟨(Game.ndcPosition win pos).x, (Game.ndcPosition win pos).y, 0, 1⟩).w).xyz).sub
        (Game.getTouchRay sqrt cam win pos).origin).normalize sqrt := by
  refine ⟨rfl, ?_, one_div_ne_zero hw, rfl⟩
  have hinv := Mat4.mulVec_inverse_mulVec (cam.projectionMatrix.mul cam.viewMatrix)
    ⟨(Game.ndcPosition win pos).x, (Game.ndcPosition win pos).y, -1, 1⟩
    ((Mat4.determinant_ne_zero_iff _).mpr hM)
  have h1 : (⟨(Game.getTouchRay sqrt cam win pos).origin.x,
      (Game.getTouchRay sqrt cam win pos).origin.y,
      (Game.getTouchRay sqrt cam win pos).origin.z, 1⟩ : Vec4 K) =
      ((cam.projectionMatrix.mul cam.viewMatrix).inverse.mulVec
        ⟨(Game.ndcPosition win pos).x, (Game.ndcPosition win pos).y, -1, 1⟩).scale
      (1 / ((cam.projectionMatrix.mul cam.viewMatrix).inverse.mulVec
        ⟨(Game.ndcPosition win pos).x, (Game.ndcPosition win pos).y, -1, 1⟩).w) := by
    simp only [Game.getTouchRay, Vec4.xyz, Vec4.divScalar, Vec4.scale, Vec4.mk.injEq]
    exact ⟨by ring, by ring, by ring, by field_simp⟩
  rw [h1, Mat4.mulVec_scale, hinv]

/-- Witness for C10: a perspective-like projection, the identity view, a window
of 200 by 100 pixels and a touch at (150, 25). -/
theorem C10_getTouchRay_unprojects_witness :
    IsUnit ((Mat4.mul (⟨⟨1, 0, 0, 0⟩, ⟨0, 1, 0, 0⟩, ⟨0, 0, -2, -1⟩, ⟨0, 0, -3, 0⟩⟩ : Mat4 ℚ)
      ⟨⟨1, 0, 0, 0⟩, ⟨0, 1, 0, 0⟩, ⟨0, 0, 1, 0⟩, ⟨0, 0, 0, 1⟩⟩).toMatrix) ∧
    (Game.getTouchRay (fun q : ℚ => q)
        ⟨⟨⟨1, 0, 0, 0⟩, ⟨0, 1, 0, 0⟩, ⟨0, 0, -2, -1⟩, ⟨0, 0, -3, 0⟩⟩,
         ⟨⟨1, 0, 0, 0⟩, ⟨0, 1, 0, 0⟩, ⟨0, 0, 1, 0⟩, ⟨0, 0, 0, 1⟩⟩⟩
        ⟨200, 100⟩ ⟨150, 25⟩).origin = ⟨1 / 2, 1 / 2, -1⟩ := by
  have hM : IsUnit ((Mat4.mul (⟨⟨1, 0, 0, 0⟩, ⟨0, 1, 0, 0⟩, ⟨0, 0, -2, -1⟩, ⟨0, 0, -3, 0⟩⟩ : Mat4 ℚ)
      ⟨⟨1, 0, 0, 0⟩, ⟨0, 1, 0, 0⟩, ⟨0, 0, 1, 0⟩, ⟨0, 0, 0, 1⟩⟩).toMatrix) :=
    (Mat4.determinant_ne_zero_iff _).mp
      (by norm_num [Mat4.determinant, Mat4.cofactors, Mat4.mul, Mat4.mulVec])
  have h := (C10_getTouchRay_unprojects (fun q : ℚ => q)
    ⟨⟨⟨1, 0, 0, 0⟩, ⟨0, 1, 0, 0⟩, ⟨0, 0, -2, -1⟩, ⟨0, 0, -3, 0⟩⟩,
     ⟨⟨1, 0, 0, 0⟩, ⟨0, 1, 0, 0⟩, ⟨0, 0, 1, 0⟩, ⟨0, 0, 0, 1⟩⟩⟩
    ⟨200, 100⟩ ⟨150, 25⟩ hM
    (by norm_num [Mat4.determinant, Mat4.cofactors, Mat4.mul, Mat4.mulVec, Mat4.inverse,
      Vec4.scale, Game.ndcPosition])).1
  refine ⟨hM, ?_⟩
  rw [h]
  norm_num [Mat4.determinant, Mat4.cofactors, Mat4.mul, Mat4.mulVec, Mat4.inverse,
    Vec4.scale, Vec4.divScalar, Vec4.xyz, Game.ndcPosition]

/-! ## Stick input -/

/-- C6 (as stated, refuted): a roll of 2 with a thrust of 1/2.  The sample that
`TestGame::onRollThrustInput` (and the JNI entry point) hands to the quadcopter
is `(2, 1/2)`, not the sample `(1, 1/2)` obtained from the clamped input; the
same holds for `onYawPitchInput` with a yaw of -3. -/
theorem C6_stick_input_not_clamped :
    (TestGame.onRollThrustInput (⟨[]⟩ : TestGame ℚ) 2 (1 / 2)).uav
      = [QuadcopterCall.onRollThrustInput ⟨2, 1 / 2⟩] ∧
    (TestGame.onRollThrustInput (⟨[]⟩ : TestGame ℚ) (specClampStick 2) (specClampStick (1 / 2))).uav
      = [QuadcopterCall.onRollThrustInput ⟨1, 1 / 2⟩] ∧
    (onRollThrustInputJNI (⟨[]⟩ : TestGame ℚ) 2 (1 / 2)).uav ≠
      (onRollThrustInputJNI (⟨[]⟩ : TestGame ℚ) (specClampStick 2) (specClampStick (1 / 2))).uav ∧
    (onYawPitchInputJNI (⟨[]⟩ : TestGame ℚ) (-3) 0).uav ≠
      (onYawPitchInputJNI (⟨[]⟩ : TestGame ℚ) (specClampStick (-3)) (specClampStick 0)).uav := by
  refine ⟨rfl, ?_, ?_, ?_⟩
  · norm_num [TestGame.onRollThrustInput, specClampStick]
  · norm_num [onRollThrustInputJNI, TestGame.onRollThrustInput, specClampStick]
  · norm_num [onYawPitchInputJNI, TestGame.onYawPitchInput, specClampStick]

/-- C6 (amended): `TestGame::onRollThrustInput` and `TestGame::onYawPitchInput`,
and the JNI entry points in front of them, hand both axes to the quadcopter
unchanged, whatever their value; nothing is rejected.  The sample that reaches
the quadcopter equals the one obtained from the clamped input exactly when both
axes already lie in `[-1, 1]`. -/
theorem C6_stick_input_forwarded_unchanged {K : Type} [LinearOrderedField K] (t : TestGame K)
    (a b : K) :
    (t.onRollThrustInput a b).uav = t.uav ++ [QuadcopterCall.onRollThrustInput ⟨a, b⟩] ∧
    (t.onYawPitchInput a b).uav = t.uav ++ [QuadcopterCall.onYawPitchInput ⟨a, b⟩] ∧
    onRollThrustInputJNI t a b = t.onRollThrustInput a b ∧
    onYawPitchInputJNI t a b = t.onYawPitchInput a b ∧
    ((t.onRollThrustInput a b).uav
        = (t.onRollThrustInput (specClampStick a) (specClampStick b)).uav ↔
      ((-1 ≤ a ∧ a ≤ 1) ∧ (-1 ≤ b ∧ b ≤ 1))) ∧
    ((t.onYawPitchInput a b).uav
        = (t.onYawPitchInput (specClampStick a) (specClampStick b)).uav ↔
      ((-1 ≤ a ∧ a ≤ 1) ∧ (-1 ≤ b ∧ b ≤ 1))) := by
  have hclamp : ∀ x : K, x = specClampStick x ↔ (-1 ≤ x ∧ x ≤ 1) := by
    intro x
    unfold specClampStick
    constructor
    · intro h
      constructor
      · rw [h]; exact le_max_left _ _
      · rw [h]; exact max_le (by norm_num) (min_le_right _ _)
    · rintro ⟨h1, h2⟩
      rw [min_eq_left h2, max_eq_right h1]
  refine ⟨rfl, rfl, rfl, rfl, ?_, ?_⟩
  · simp only [TestGame.onRollThrustInput, List.append_cancel_left_eq, List.cons.injEq,
      QuadcopterCall.onRollThrustInput.injEq, Vec2.mk.injEq, and_true]
    rw [hclamp a, hclamp b]
  · simp only [TestGame.onYawPitchInput, List.append_cancel_left_eq, List.cons.injEq,
      QuadcopterCall.onYawPitchInput.injEq, Vec2.mk.injEq, and_true]
    rw [hclamp a, hclamp b]

/-! ## Non-finite input to the rigid body -/

/-- C7 (as stated, refuted): every one of the five wrappers hands a NaN or an
infinity on to the engine body: the call is made (nothing fails) and its
argument is not replaced by zero. -/
theorem C7_non_finite_passed_on :
    ((⟨[]⟩ : PhysicsRigidBody FloatValue).applyCentralForce ⟨.nan, .finite 0, .finite 0⟩).body
      = [BodyCall.applyCentralForce ⟨.nan, .finite 0, .finite 0⟩] ∧
    ((⟨[]⟩ : PhysicsRigidBody FloatValue).applyTorque ⟨.finite 0, .infinity false, .finite 0⟩).body
      = [BodyCall.applyTorque ⟨.finite 0, .infinity false, .finite 0⟩] ∧
    ((⟨[]⟩ : PhysicsRigidBody FloatValue).applyForce ⟨.finite 1, .finite 0, .nan⟩
        ⟨.finite 0, .finite 0, .finite 0⟩).body
      = [BodyCall.applyForce ⟨.finite 1, .finite 0, .nan⟩ ⟨.finite 0, .finite 0, .finite 0⟩] ∧
    ((⟨[]⟩ : PhysicsRigidBody FloatValue).setLinearVelocity ⟨.infinity true, .finite 0, .finite 0⟩).body
      = [BodyCall.setLinearVelocity ⟨.infinity true, .finite 0, .finite 0⟩] ∧
    ((⟨[]⟩ : PhysicsRigidBody FloatValue).setAngularVelocity ⟨.finite 0, .finite 0, .nan⟩).body
      = [BodyCall.setAngularVelocity ⟨.finite 0, .finite 0, .nan⟩] ∧
    (((⟨[]⟩ : PhysicsRigidBody FloatValue).applyCentralForce ⟨.nan, .finite 0, .finite 0⟩).body.all
      BodyCall.allFinite) = false := by
  decide

/-- C7 (amended): the five wrappers do not look at their input.  Whatever the
components are, finite or not, each wrapper makes exactly one call on the
engine body and that call carries the components it was given, unchanged. -/
theorem C7_wrappers_forward_unchanged {F : Type} (b : PhysicsRigidBody F) (u v : Vec3 F) :
    (b.applyCentralForce v).body = b.body ++ [BodyCall.applyCentralForce v] ∧
    (b.applyTorque v).body = b.body ++ [BodyCall.applyTorque v] ∧
    (b.applyForce u v).body = b.body ++ [BodyCall.applyForce u v] ∧
    (b.setLinearVelocity v).body = b.body ++ [BodyCall.setLinearVelocity v] ∧
    (b.setAngularVelocity v).body = b.body ++ [BodyCall.setAngularVelocity v] :=
  ⟨rfl, rfl, rfl, rfl, rfl⟩

/-! ## The quadcopter parameters of TestGame -/

/-- C8: the parameter set that `TestGame::onCreate` builds for the quadcopter
has strictly positive mass, limits and scale factors, and non-negative gains. -/
theorem C8_onCreate_params_valid (K : Type) [LinearOrderedField K] :
    0 < (TestGame.onCreateParams K).mass ∧
    0 < (TestGame.onCreateParams K).maxRoll ∧
    0 < (TestGame.onCreateParams K).maxPitch ∧
    0 < (TestGame.onCreateParams K).maxRollRate ∧
    0 < (TestGame.onCreateParams K).maxPitchRate ∧
    0 < (TestGame.onCreateParams K).maxYawRate ∧
    0 < (TestGame.onCreateParams K).maxThrust ∧
    0 < (TestGame.onCreateParams K).controlRates2MotorRotationSpeed ∧
    0 < (TestGame.onCreateParams K).motorRotationSpeed2Thrust ∧
    0 ≤ (TestGame.onCreateParams K).angle_kp ∧
    0 ≤ (TestGame.onCreateParams K).angle_ki ∧
    0 ≤ (TestGame.onCreateParams K).angle_kd ∧
    0 ≤ (TestGame.onCreateParams K).angleRate_kp ∧
    0 ≤ (TestGame.onCreateParams K).angleRate_ki ∧
    0 ≤ (TestGame.onCreateParams K).angleRate_kd := by
  simp only [TestGame.onCreateParams, glm.radians]
  norm_num

/-! ## Vector algebra behind the orientation setters -/

section orientation
variable {K : Type} [LinearOrderedField K]

end orientation

/-! ## Look-at direction followed by normal direction -/

/-- C11: in `getTouchRay`, for a window of width `W > 0` and height `H > 0`, the
touch at `(x, y)` is converted to `(2x/W - 1, 1 - 2y/H)`, and these are the
coordinates the unprojection starts from; the vertical axis is flipped, the
window centre goes to `(0, 0)`, the top-left corner to `(-1, 1)`, the
bottom-right corner to `(1, -1)`, and every touch inside the window goes into
the square `[-1, 1] x [-1, 1]`. -/
theorem C11_ndcPosition_formula {K : Type} [LinearOrderedField K] (win : ManagerWindowing)
    (hW : 0 < win.windowWidth) (hH : 0 < win.windowHeight) :
    (∀ pos : Vec2 K, Game.ndcPosition win pos =
      ⟨2 * pos.x / (win.windowWidth : K) - 1, 1 - 2 * pos.y / (win.windowHeight : K)⟩) ∧
    (∀ (sqrt : K → K) (cam : Camera K) (pos : Vec2 K),
      (Game.getTouchRay sqrt cam win pos).origin =
        (((cam.projectionMatrix.mul cam.viewMatrix).inverse.mulVec
            ⟨2 * pos.x / (win.windowWidth : K) - 1, 1 - 2 * pos.y / (win.windowHeight : K),
              -1, 1⟩).divScalar
          ((cam.projectionMatrix.mul cam.viewMatrix).inverse.mulVec
            ⟨2 * pos.x / (win.windowWidth : K) - 1, 1 - 2 * pos.y / (win.windowHeight : K),
              -1, 1⟩).w).xyz) ∧
    (∀ (x y1 y2 : K), y1 < y2 →
      (Game.ndcPosition win (⟨x, y2⟩ : Vec2 K)).y < (Game.ndcPosition win (⟨x, y1⟩ : Vec2 K)).y) ∧
    Game.ndcPosition win (⟨(win.windowWidth : K) / 2, (win.windowHeight : K) / 2⟩ : Vec2 K)
      = ⟨0, 0⟩ ∧
    Game.ndcPosition win (⟨0, 0⟩ : Vec2 K) = ⟨-1, 1⟩ ∧
    Game.ndcPosition win (⟨(win.windowWidth : K), (win.windowHeight : K)⟩ : Vec2 K) = ⟨1, -1⟩ ∧
    (∀ pos : Vec2 K, 0 ≤ pos.x → pos.x ≤ (win.windowWidth : K) →
      0 ≤ pos.y → pos.y ≤ (win.windowHeight : K) →
      (-1 ≤ (Game.ndcPosition win pos).x ∧ (Game.ndcPosition win pos).x ≤ 1) ∧
      (-1 ≤ (Game.ndcPosition win pos).y ∧ (Game.ndcPosition win pos).y ≤ 1)) := by
  have hWK : (0 : K) < (win.windowWidth : K) := by exact_mod_cast hW
  have hHK : (0 : K) < (win.windowHeight : K) := by exact_mod_cast hH
  have hW0 : (win.windowWidth : K) ≠ 0 := hWK.ne.symm
  have hH0 : (win.windowHeight : K) ≠ 0 := hHK.ne.symm
  have hformula : ∀ pos : Vec2 K, Game.ndcPosition win pos =
      ⟨2 * pos.x / (win.windowWidth : K) - 1, 1 - 2 * pos.y / (win.windowHeight : K)⟩ := by
    intro pos
    simp only [Game.ndcPosition, Vec2.mk.injEq]
    constructor
    · field_simp; ring
    · field_simp; ring
  refine ⟨hformula, ?_, ?_, ?_, ?_, ?_, ?_⟩
  · intro sqrt cam pos
    have h := hformula pos
    simp only [Game.getTouchRay]
    rw [h]
  · intro x y1 y2 hy
    rw [hformula, hformula]
    simp only
    have : 2 * y1 / (win.windowHeight : K) < 2 * y2 / (win.windowHeight : K) :=
      div_lt_div_of_pos_right (by linarith) hHK
    linarith
  · rw [hformula]
    simp only [Vec2.mk.injEq]
    constructor
    · field_simp
    · field_simp
  · rw [hformula]
    simp
  · rw [hformula]
    simp only [Vec2.mk.injEq]
    constructor
    · field_simp; ring
    · field_simp; ring
  · intro pos hx0 hx1 hy0 hy1
    rw [hformula]
    simp only
    have hx2 : 0 ≤ 2 * pos.x / (win.windowWidth : K) := div_nonneg (by linarith) hWK.le
    have hx3 : 2 * pos.x / (win.windowWidth : K) ≤ 2 := by
      rw [div_le_iff₀ hWK]; linarith
    have hy2 : 0 ≤ 2 * pos.y / (win.windowHeight : K) := div_nonneg (by linarith) hHK.le
    have hy3 : 2 * pos.y / (win.windowHeight : K) ≤ 2 := by
      rw [div_le_iff₀ hHK]; linarith
    exact ⟨⟨by linarith, by linarith⟩, ⟨by linarith, by linarith⟩⟩

/-- Witness for C11: a window of 200 by 100 pixels; the touch at (150, 25) has
normalised device coordinates (1/2, 1/2). -/
theorem C11_ndcPosition_formula_witness :
    (0 : Int) < (⟨200, 100⟩ : ManagerWindowing).windowWidth ∧
    (0 : Int) < (⟨200, 100⟩ : ManagerWindowing).windowHeight ∧
    Game.ndcPosition ⟨200, 100⟩ (⟨150, 25⟩ : Vec2 ℚ) = ⟨1 / 2, 1 / 2⟩ := by
  have h := (C11_ndcPosition_formula (K := ℚ) ⟨200, 100⟩ (by decide) (by decide)).1 ⟨150, 25⟩
  refine ⟨by decide, by decide, ?_⟩
  rw [h]
  norm_num

/-! ## TestGame: reaction to a touched object -/

/-- C12: for every touched object and every touch point, direction and normal,
`TestGame::onGameObjectTouched` makes exactly three calls, in this order: a
central force of 400 times the touch direction on the touched object, the
identity orientation on the UAV, the position `(0, 0, 0.5)` on the UAV.
Afterwards the touched object has that one force more, the UAV has the identity
orientation and the position `(0, 0, 0.5)` whichever object was touched, the
touch point and the touch normal make no difference, and every object other
than the touched one and the UAV is as it was. -/
theorem C12_onGameObjectTouched_effects {K : Type} [Field K] (s : TestScene K) (gameObject : Nat)
    (touchPoint touchDirection touchNormal : Vec3 K) :
    (TestGame.onGameObjectTouched s gameObject touchPoint touchDirection touchNormal).calls =
      s.calls ++ [ObjectCall.applyCentralForce gameObject
          ⟨touchDirection.x * 400, touchDirection.y * 400, touchDirection.z * 400⟩,
        ObjectCall.setOrientation s.uav ⟨⟨1, 0, 0⟩, ⟨0, 1, 0⟩, ⟨0, 0, 1⟩⟩,
        ObjectCall.setPosition s.uav ⟨0, 0, 1 / 2⟩] ∧
    ((TestGame.onGameObjectTouched s gameObject touchPoint touchDirection touchNormal).objects
        gameObject).centralForces =
      (s.objects gameObject).centralForces ++
        [⟨touchDirection.x * 400, touchDirection.y * 400, touchDirection.z * 400⟩] ∧
    ((TestGame.onGameObjectTouched s gameObject touchPoint touchDirection touchNormal).objects
        s.uav).orientation = ⟨⟨1, 0, 0⟩, ⟨0, 1, 0⟩, ⟨0, 0, 1⟩⟩ ∧
    ((TestGame.onGameObjectTouched s gameObject touchPoint touchDirection touchNormal).objects
        s.uav).position = ⟨0, 0, 1 / 2⟩ ∧
    (TestGame.onGameObjectTouched s gameObject touchPoint touchDirection touchNormal).uav = s.uav ∧
    (∀ touchPoint1 touchNormal1 : Vec3 K,
      TestGame.onGameObjectTouched s gameObject touchPoint1 touchDirection touchNormal1 =
        TestGame.onGameObjectTouched s gameObject touchPoint touchDirection touchNormal) ∧
    (∀ obj : Nat, obj ≠ gameObject → obj ≠ s.uav →
      (TestGame.onGameObjectTouched s gameObject touchPoint touchDirection touchNormal).objects obj
        = s.objects obj) ∧
    (gameObject ≠ s.uav →
      ((TestGame.onGameObjectTouched s gameObject touchPoint touchDirection touchNormal).objects
          gameObject).orientation = (s.objects gameObject).orientation ∧
      ((TestGame.onGameObjectTouched s gameObject touchPoint touchDirection touchNormal).objects
          gameObject).position = (s.objects gameObject).position ∧
      ((TestGame.onGameObjectTouched s gameObject touchPoint touchDirection touchNormal).objects
          s.uav).centralForces = (s.objects s.uav).centralForces) := by
  refine ⟨?_, ?_, ?_, ?_, rfl, fun _ _ => rfl, ?_, ?_⟩
  · simp [TestGame.onGameObjectTouched, TestScene.setPosition, TestScene.setOrientation,
      TestScene.applyCentralForce, Model.identity, Vec3.scale]
  · by_cases h : gameObject = s.uav
    · simp [TestGame.onGameObjectTouched, TestScene.setPosition, TestScene.setOrientation,
        TestScene.applyCentralForce, Vec3.scale, h]
    · simp [TestGame.onGameObjectTouched, TestScene.setPosition, TestScene.setOrientation,
        TestScene.applyCentralForce, Vec3.scale, h, Function.update_noteq]
  · simp [TestGame.onGameObjectTouched, TestScene.setPosition, TestScene.setOrientation,
      TestScene.applyCentralForce, Model.identity]
  · simp [TestGame.onGameObjectTouched, TestScene.setPosition, TestScene.setOrientation,
      TestScene.applyCentralForce]
  · intro obj h1 h2
    simp [TestGame.onGameObjectTouched, TestScene.setPosition, TestScene.setOrientation,
      TestScene.applyCentralForce, Function.update_noteq, h1, h2]
  · intro h
    have h2 : s.uav ≠ gameObject := fun e => h e.symm
    simp [TestGame.onGameObjectTouched, TestScene.setPosition, TestScene.setOrientation,
      TestScene.applyCentralForce, Function.update_noteq, h, h2]

end age
